import Mathlib

/-!
# Verification of the Treasury Package document generator

A shallow embedding of `src/generator.py` (class `TreasuryPackageGenerator`):
the pure text machinery — the formatter (`format_date_written`,
`number_to_words`), the replacement-map builder (`prepare_replacements`),
the substitution engine (`replace_text_in_file`) — and the batch
orchestration skeleton of `generate_package`.

Python strings are modelled as Lean `String` (operations are implemented on
the underlying `List Char`), Python `dict`s of replacements as association
lists in insertion order (all keys of the source dict are distinct, so an
association list is faithful), and the filesystem / DOCX side effects of
`generate_package` are abstracted into an explicit directory listing and a
per-template processing function returning `Except`.
-/

namespace ReclaimStatus

/-! ## Python string primitives -/

/-- Boolean prefix test on character lists (the second list starts with the
first). -/
def isPref : List Char → List Char → Bool
  | [], _ => true
  | _ :: _, [] => false
  | a :: as, b :: bs => a == b && isPref as bs

/-- Python's `key in s` on character lists: the empty key is contained in
every string. -/
def containsSub (key : List Char) : List Char → Bool
  | [] => key.isEmpty
  | c :: rest => isPref key (c :: rest) || containsSub key rest

/-- Python's `s.replace(key, val)` with explicit fuel (one unit per character
scanned) so that the recursion is structural and kernel-evaluable:
left-to-right, non-overlapping replacement of every occurrence; the inserted
replacement text is not re-scanned. For an empty `key`, Python inserts `val`
before every character and after the last, which the `isEmpty` branches
mirror. With `fuel ≥ s.length` the fuel never runs out. -/
def replaceFuel (key val : List Char) : Nat → List Char → List Char
  | _, [] => if key.isEmpty then val else []
  | 0, s => s
  | fuel + 1, c :: rest =>
    if key.isEmpty then
      val ++ c :: replaceFuel key val fuel rest
    else if isPref key (c :: rest) then
      val ++ replaceFuel key val fuel ((c :: rest).drop key.length)
    else
      c :: replaceFuel key val fuel rest

/-- `s.replace(key, val)` on character lists. -/
def pyReplaceCore (key val s : List Char) : List Char :=
  replaceFuel key val s.length s

/-- `s.replace(old, new)` lifted to `String`. -/
def pyReplace (s old new : String) : String :=
  ⟨pyReplaceCore old.data new.data s.data⟩

/-- `sub in s` lifted to `String`. -/
def pyContains (s sub : String) : Bool :=
  containsSub sub.data s.data

/-- `s.upper()` (ASCII, which is all the generator feeds it). -/
def pyUpper (s : String) : String := ⟨s.data.map Char.toUpper⟩

/-- `s.lower()` (ASCII, which is all the generator feeds it). -/
def pyLower (s : String) : String := ⟨s.data.map Char.toLower⟩

/-- `s.strip()`: whitespace removed from both ends. -/
def pyStrip (s : String) : String :=
  ⟨((s.data.dropWhile Char.isWhitespace).reverse.dropWhile Char.isWhitespace).reverse⟩

/-- Python slicing `s[:n]`; the source's `s[0]` is `strTake s 1` (the
generator only indexes strings it has checked to be non-empty, where the two
agree). -/
def strTake (s : String) (n : Nat) : String :=
  ⟨s.data.take n⟩

/-- `sep.join(parts)`. -/
def joinWith (sep : String) : List String → String
  | [] => ""
  | [w] => w
  | w :: ws => w ++ sep ++ joinWith sep ws

/-- `data.get(field, '')`: an absent field reads as the empty string. -/
def getS (o : Option String) : String := o.getD ""

/-- `s.endswith(suffix)`. -/
def pyEndsWith (s suffix : String) : Bool :=
  isPref suffix.data.reverse s.data.reverse

/-- Lexicographic comparison of character lists by code point, as Python
compares strings. -/
def lexLe : List Char → List Char → Bool
  | [], _ => true
  | _ :: _, [] => false
  | a :: as, b :: bs => if a < b then true else if b < a then false else lexLe as bs

/-- Python's `s <= t` on strings. -/
def strLe (a b : String) : Bool := lexLe a.data b.data

/-! ## Basic lemmas about the primitives -/

lemma isPref_nil (l : List Char) : isPref [] l = true := by cases l <;> rfl

lemma replaceFuel_of_not_contains (key val : List Char) :
    ∀ (fuel : Nat) (s : List Char), containsSub key s = false →
      replaceFuel key val fuel s = s := by
  intro fuel
  induction fuel with
  | zero =>
    intro s h
    cases s with
    | nil =>
      simp only [containsSub] at h
      simp [replaceFuel, h]
    | cons c rest => rfl
  | succ n ih =>
    intro s h
    cases s with
    | nil =>
      simp only [containsSub] at h
      simp [replaceFuel, h]
    | cons c rest =>
      simp only [containsSub, Bool.or_eq_false_iff] at h
      obtain ⟨hpre, hrest⟩ := h
      have hk : key.isEmpty = false := by
        cases key with
        | nil => rw [isPref_nil] at hpre; exact absurd hpre (by simp)
        | cons a as => rfl
      simp [replaceFuel, hk, hpre, ih rest hrest]

lemma pyReplace_of_not_contains (s old new : String) (h : pyContains s old = false) :
    pyReplace s old new = s := by
  unfold pyReplace
  rw [pyReplaceCore, replaceFuel_of_not_contains old.data new.data s.data.length s.data h]

/-! ## Formatter: `number_to_words` -/

/-- The `ones` table of `_digit_words`. -/
def onesWords : List String :=
  ["", "ONE", "TWO", "THREE", "FOUR", "FIVE", "SIX", "SEVEN", "EIGHT", "NINE",
   "TEN", "ELEVEN", "TWELVE", "THIRTEEN", "FOURTEEN", "FIFTEEN", "SIXTEEN",
   "SEVENTEEN", "EIGHTEEN", "NINETEEN"]

/-- The `tens` table of `_digit_words`. -/
def tensWords : List String :=
  ["", "", "TWENTY", "THIRTY", "FORTY", "FIFTY", "SIXTY", "SEVENTY", "EIGHTY", "NINETY"]

/-- The two sub-100 branches of `_digit_words`. -/
def digit_words_small (n : Nat) : String :=
  if n < 20 then
    onesWords.getD n ""
  else
    tensWords.getD (n / 10) "" ++ (if n % 10 ≠ 0 then "-" ++ onesWords.getD (n % 10) "" else "")

/-- `_digit_words`: a 1–999 segment spelled out (the generator only calls it
in that range; out-of-range table accesses, which raise in Python, read the
tables' default `""` here). The Python function recurses exactly once, on
`n % 100 < 100` where it lands in the sub-100 branches, so that one call is
unrolled into `digit_words_small` to keep the definition structurally
total and kernel-evaluable. -/
def digit_words (n : Nat) : String :=
  if n < 100 then
    digit_words_small n
  else
    onesWords.getD (n / 100) "" ++ " HUNDRED" ++
      (if n % 100 ≠ 0 then " " ++ digit_words_small (n % 100) else "")

/-- `number_to_words`: BILLION/MILLION/THOUSAND magnitudes only; an empty
word list renders as `"ZERO"`. -/
def number_to_words (num : Nat) : String :=
  let billions := num / 1000000000
  let millions := (num % 1000000000) / 1000000
  let thousands := (num % 1000000) / 1000
  let words :=
    (if billions ≠ 0 then [digit_words billions ++ " BILLION"] else []) ++
    (if millions ≠ 0 then [digit_words millions ++ " MILLION"] else []) ++
    (if thousands ≠ 0 then [digit_words thousands ++ " THOUSAND"] else [])
  if words.isEmpty then "ZERO" else joinWith " " words

/-! ## Formatter: money and dates -/

/-- Thousands grouping of a reversed digit list (a comma after every third
digit). -/
def groupRev : List Char → List Char
  | d1 :: d2 :: d3 :: d4 :: rest => d1 :: d2 :: d3 :: ',' :: groupRev (d4 :: rest)
  | l => l

/-- The integer part of Python's `f"{n:,}"`: decimal digits with thousands
separators. -/
def commaSep (n : Nat) : String :=
  ⟨(groupRev (toString n).data.reverse).reverse⟩

/-- `f"${n:,.2f}"` for the integer lien amount: two fixed decimals. -/
def formatMoney (n : Nat) : String :=
  "$" ++ commaSep n ++ ".00"

/-- `%B` month names of `strftime`. -/
def monthNames : List String :=
  ["January", "February", "March", "April", "May", "June", "July",
   "August", "September", "October", "November", "December"]

/-- Gregorian leap year, as `datetime` validates it. -/
def isLeap (y : Nat) : Bool :=
  y % 4 == 0 && (y % 100 != 0 || y % 400 == 0)

/-- Days in a month, as `datetime` validates day-of-month. -/
def daysInMonth (y m : Nat) : Nat :=
  if m = 2 then (if isLeap y then 29 else 28)
  else if m = 4 ∨ m = 6 ∨ m = 9 ∨ m = 11 then 30
  else 31

/-- Value of an ASCII digit character. -/
def digitVal (c : Char) : Nat := c.toNat - 48

/-- The `%d` group of CPython's `strptime`, compiled to the regex
alternation `3[0-1]|[1-2]\d|0[1-9]|[1-9]| [1-9]` (two digits, a plain
digit 1–9, or a space-padded digit), here anchored at the end of the
string since `strptime` rejects unconverted trailing data. -/
def parseDayEnd (l : List Char) : Option Nat :=
  match l with
  | [d1] =>
    if '1' ≤ d1 ∧ d1 ≤ '9' then some (digitVal d1) else none
  | [d1, d2] =>
    if d1 = '3' ∧ (d2 = '0' ∨ d2 = '1') then some (30 + digitVal d2)
    else if (d1 = '1' ∨ d1 = '2') ∧ d2.isDigit then some (digitVal d1 * 10 + digitVal d2)
    else if (d1 = '0' ∨ d1 = ' ') ∧ ('1' ≤ d2 ∧ d2 ≤ '9') then some (digitVal d2)
    else none
  | _ => none

/-- The `%m` group (`1[0-2]|0[1-9]|[1-9]`) followed by the literal `'-'`
and the `%d` group. The one- and two-digit month alternatives are mutually
exclusive here — after a one-digit month the next character must be the
literal `'-'`, after a two-digit month it must be a digit — so the
regex's ordered alternation needs no backtracking. -/
def parseMDEnd (l : List Char) : Option (Nat × Nat) :=
  match l with
  | m1 :: '-' :: dayPart =>
    if '1' ≤ m1 ∧ m1 ≤ '9' then
      (parseDayEnd dayPart).map (fun d => (digitVal m1, d))
    else none
  | m1 :: m2 :: '-' :: dayPart =>
    if (m1 = '1' ∧ '0' ≤ m2 ∧ m2 ≤ '2') ∨ (m1 = '0' ∧ '1' ≤ m2 ∧ m2 ≤ '9') then
      (parseDayEnd dayPart).map (fun d => (digitVal m1 * 10 + digitVal m2, d))
    else none
  | _ => none

/-- Models `datetime.strptime(s, "%Y-%m-%d")` on ASCII input. CPython
compiles the format to the start-anchored regex
`(?P<Y>\d\d\d\d)-(?P<m>1[0-2]|0[1-9]|[1-9])-(?P<d>3[0-1]|[1-2]\d|0[1-9]|[1-9]| [1-9])`
(the year is exactly four digits), raises on unconverted trailing data
(end anchor here), and the `datetime` constructor then validates the year
(`MINYEAR = 1`) and the day against the month's length. `\d` also matches
non-ASCII Unicode decimal digits, which this model does not cover — the C5
theorem restricts its general unparsable-input clause to ASCII strings for
that reason. -/
def parseYMD (s : String) : Option (Nat × Nat × Nat) :=
  match s.data with
  | y1 :: y2 :: y3 :: y4 :: '-' :: rest =>
    if y1.isDigit ∧ y2.isDigit ∧ y3.isDigit ∧ y4.isDigit then
      let y := ((digitVal y1 * 10 + digitVal y2) * 10 + digitVal y3) * 10 + digitVal y4
      match parseMDEnd rest with
      | some (m, d) => if 1 ≤ y ∧ d ≤ daysInMonth y m then some (y, m, d) else none
      | none => none
    else none
  | _ => none

/-- The ordinal-suffix expression of `format_date_written`:
`'th' if 11 <= day <= 13 else {1:'st', 2:'nd', 3:'rd'}.get(day % 10, 'th')`. -/
def ordinalSuffix (day : Nat) : String :=
  if 11 ≤ day ∧ day ≤ 13 then "th"
  else
    match day % 10 with
    | 1 => "st"
    | 2 => "nd"
    | 3 => "rd"
    | _ => "th"

/-- `format_date_written`: empty input gives `""`; a parsable ISO date is
rendered `"<Month> <day><suffix>, <year>"`; anything the parse rejects
(where `strptime` raises and the `except` returns the input) comes back
unchanged. -/
def format_date_written (date_str : String) : String :=
  if date_str = "" then ""
  else
    match parseYMD date_str with
    | some (y, m, d) =>
      monthNames.getD (m - 1) "" ++ " " ++ toString d ++ ordinalSuffix d ++ ", " ++ toString y
    | none => date_str

/-! ## Customer records and the replacement-map builder -/

/-- The customer data record handed to `prepare_replacements`: every string
field optional (`data.get(key, '')` reads an absent field as `""`), the lien
amount an optional integer (`data.get('lienAmount', 100000000)`). -/
structure Customer where
  firstName : Option String := none
  middleName : Option String := none
  lastName : Option String := none
  ssn : Option String := none
  streetAddress : Option String := none
  city : Option String := none
  state : Option String := none
  zipCode : Option String := none
  county : Option String := none
  uccFilingNumber : Option String := none
  uccFilingState : Option String := none
  registeredMailNumber : Option String := none
  dtcRoutingNumber : Option String := none
  dtcAccountNumber : Option String := none
  lienAmount : Option Nat := none
  documentDate : Option String := none
  birthDate : Option String := none
  birthCertNumber : Option String := none

/-- `prepare_replacements`: the full placeholder-literal → value dictionary,
in the source's insertion order (all its keys are distinct, so an
association list in that order is a faithful model of the Python dict). -/
def prepare_replacements (data : Customer) : List (String × String) :=
  let first := getS data.firstName
  let middle := getS data.middleName
  let last := getS data.lastName
  let full_parts := if middle ≠ "" then [first, middle, last] else [first, last]
  let full_name_upper := pyUpper (joinWith " " full_parts)
  let full_name_styled :=
    if middle ≠ "" then first ++ "-" ++ middle ++ ": " ++ last else first ++ ": " ++ last
  let ssn := getS data.ssn
  let ssn_no_dashes := pyReplace ssn "-" ""
  let lien_amount := data.lienAmount.getD 100000000
  let lien_formatted := formatMoney lien_amount
  let lien_words := number_to_words lien_amount
  let doc_date := getS data.documentDate
  let doc_date_written := format_date_written doc_date
  let birth_date := getS data.birthDate
  let birth_date_written := format_date_written birth_date
  [ -- Name variants - ALL CAPS version
    ("THOMAS KALLEN CLAYCOMB", full_name_upper),
    ("THOMAS K CLAYCOMB", full_name_upper),
    ("THOMAS CLAYCOMB", pyUpper (first ++ " " ++ last)),
    ("T KALLEN CLAYCOMB",
      if middle ≠ "" then
        pyUpper ((if first ≠ "" then strTake first 1 else "") ++ " " ++ middle ++ " " ++ last)
      else full_name_upper),
    ("TKC",
      if first ≠ "" ∧ last ≠ "" then
        pyUpper (strTake first 1 ++ (if middle ≠ "" then strTake middle 1 else "") ++ strTake last 1)
      else ""),
    -- Name variants - Styled version
    ("Thomas-Kallen: Claycomb", full_name_styled),
    ("Thomas-Kallen: CLaycomb", full_name_styled),
    ("Thomas K. Claycomb",
      pyReplace
        (pyStrip (first ++ " " ++ (if middle ≠ "" then strTake middle 1 else "") ++ ". " ++ last))
        " ." ""),
    ("Thomas Kallen Claycomb",
      if middle ≠ "" then first ++ " " ++ middle ++ " " ++ last else first ++ " " ++ last),
    -- SSN variants
    ("493-74-8357", ssn),
    ("493748357", ssn_no_dashes),
    ("**493-74-8357**", "**" ++ ssn ++ "**"),
    ("**493748357**", "**" ++ ssn_no_dashes ++ "**"),
    ("#493-74-8357", "#" ++ ssn),
    ("#493748357", "#" ++ ssn_no_dashes),
    -- Address - Mixed case
    ("6316 East 113th Avenue", getS data.streetAddress),
    ("c/o 6316 East 113th Avenue", "c/o " ++ getS data.streetAddress),
    -- Address - UPPER CASE
    ("6316 EAST 113TH AVENUE", pyUpper (getS data.streetAddress)),
    -- City variants
    ("Temple Terrace", getS data.city),
    ("TEMPLE TERRACE", pyUpper (getS data.city)),
    -- State variants
    ("Florida", getS data.state),
    ("FLORIDA", pyUpper (getS data.state)),
    ("Florida Republic", getS data.state ++ " Republic"),
    ("Florida State", getS data.state ++ " State"),
    -- ZIP Code
    ("33617", getS data.zipCode),
    ("[33617]", "[" ++ getS data.zipCode ++ "]"),
    ("near [33617]", "near [" ++ getS data.zipCode ++ "]"),
    -- County variants
    ("Hillsborough", getS data.county),
    ("HILLSBOROUGH", pyUpper (getS data.county)),
    ("Hillsborough County", getS data.county ++ " County"),
    ("HILLSBOROUGH COUNTY", pyUpper (getS data.county) ++ " COUNTY"),
    -- UCC Info
    ("XXXXXXXXXXXXX", getS data.uccFilingNumber),
    ("xxxxxxxxxxxxxxxxx", getS data.uccFilingNumber),
    ("XXXXXXXXXXXXXX", getS data.uccFilingNumber),
    ("numberXXXXXXXXXXX", "number" ++ getS data.uccFilingNumber),
    ("New York", getS data.uccFilingState),
    ("NEW YORK", pyUpper (getS data.uccFilingState)),
    -- Registered Mail
    ("RF737860948US", getS data.registeredMailNumber),
    ("**RF737860948US**", "**" ++ getS data.registeredMailNumber ++ "**"),
    ("RF737860934US", getS data.registeredMailNumber),
    -- Financial routing
    ("0810-0004-5", getS data.dtcRoutingNumber),
    ("????????", getS data.dtcRoutingNumber),
    ("053045139", getS data.dtcAccountNumber),
    -- Lien amounts
    ("$100,000,000.00", lien_formatted),
    ("\\$100,000,000.00", lien_formatted),
    ("ONE HUNDRED MILLION", lien_words),
    ("one hundred million", pyLower lien_words),
    ("$100,000,000,000.00", formatMoney (lien_amount * 1000)),
    ("ONE HUNDRED BILLION", number_to_words (lien_amount * 1000)),
    -- Document dates
    ("April 7, 2025", doc_date_written),
    ("April 7th, 2025", doc_date_written),
    ("March 25, 2025", doc_date_written),
    ("March 9, 2025", doc_date_written),
    ("4/7/2025", if doc_date ≠ "" then doc_date else ""),
    -- Birth info
    ("October 12th 1962", birth_date_written),
    ("October 12th, 1962", birth_date_written),
    ("124-62-071026", getS data.birthCertNumber),
    ("109-71-015876", getS data.birthCertNumber),
    ("109-1971-015876", getS data.birthCertNumber),
    -- File reference numbers (keep template structure)
    ("TKC020371ANP", (if last ≠ "" then pyUpper (strTake last 3) else "XXX") ++ "020371ANP"),
    ("TKC-101362HHIA", (if last ≠ "" then pyUpper (strTake last 3) else "XXX") ++ "-101362HHIA"),
    ("TKC-101262CLC", (if last ≠ "" then pyUpper (strTake last 3) else "XXX") ++ "-101262CLC"),
    ("TKC-101262-CAD", (if last ≠ "" then pyUpper (strTake last 3) else "XXX") ++ "-101262-CAD"),
    ("101262HHIA", "101262HHIA"),
    ("JAD-SA020371", (if last ≠ "" then pyUpper (strTake last 3) else "XXX") ++ "-SA020371"),
    ("TKC -- 10121962",
      (if last ≠ "" then pyUpper (strTake last 3) else "XXX") ++ " -- " ++
        (if birth_date ≠ "" then pyReplace birth_date "-" "" else "")) ]

/-! ## Substitution engine: `replace_text_in_file` -/

/-- The sort key of the engine: `sorted(replacements.items(),
key=lambda x: len(x[0]), reverse=True)` orders an entry before another when
its key is at least as long. -/
def lenGE (a b : String × String) : Prop := b.1.length ≤ a.1.length

instance : DecidableRel lenGE := fun a b => Nat.decLe b.1.length a.1.length

instance : IsTotal (String × String) lenGE :=
  ⟨fun a b => (Nat.le_total b.1.length a.1.length).imp id id⟩

instance : IsTrans (String × String) lenGE :=
  ⟨fun _ _ _ hab hbc => Nat.le_trans hbc hab⟩

/-- Python's stable `sorted` by descending key length: insertion sort with
`lenGE` keeps equal-length keys in their original (insertion) order exactly
as Python's stable sort does. -/
def sorted_items (replacements : List (String × String)) : List (String × String) :=
  List.insertionSort lenGE replacements

/-- One iteration of the engine's loop: `if old and new: result =
result.replace(old, str(new))` — entries with an empty key or value are
skipped. -/
def substStep (result : String) (kv : String × String) : String :=
  if kv.1 ≠ "" ∧ kv.2 ≠ "" then pyReplace result kv.1 kv.2 else result

/-- `replace_text_in_file`: sort the entries by descending key length, then
apply each remaining entry in turn to the accumulating result. -/
def replace_text_in_file (content : String) (replacements : List (String × String)) : String :=
  (sorted_items replacements).foldl substStep content

/-! ## Package orchestration: `generate_package` -/

/-- The result dict of `generate_package`: generated output paths,
per-template `{'file': ..., 'error': ...}` records, and the output
directory. -/
structure PackageResult where
  generated : List String
  errors : List (String × String)
  output_dir : String

/-- The output filename derivation inside `generate_package`'s loop:
`template_name.replace('_TKC', f'_{last_name}').replace('_JAD',
f'_{last_name}')` with `last_name = customer_data.get('lastName',
'Customer')`. -/
def output_name_for (customer_data : Customer) (template_name : String) : String :=
  let last_name := customer_data.lastName.getD "Customer"
  pyReplace (pyReplace template_name "_TKC" ("_" ++ last_name)) "_JAD" ("_" ++ last_name)

/-- One iteration of `generate_package`'s loop over templates: try
`process_docx_xml` (abstracted as `proc`, which returns `Except.error`
where the Python call raises) and append either the generated path or an
error record. -/
def genStep (proc : String → String → List (String × String) → Except String Unit)
    (template_dir output_dir : String) (customer_data : Customer)
    (replacements : List (String × String))
    (acc : List String × List (String × String)) (template_name : String) :
    List String × List (String × String) :=
  let template_path := template_dir ++ "/" ++ template_name
  let output_path := output_dir ++ "/" ++ output_name_for customer_data template_name
  match proc template_path output_path replacements with
  | .ok _ => (acc.1 ++ [output_path], acc.2)
  | .error e => (acc.1, acc.2 ++ [(template_name, e)])

/-- Python's `templates.sort()`: lexicographic, stable (modelled with the
same stable insertion sort; the order relation is `String`'s `≤`, which is
lexicographic on characters exactly as Python's). -/
def pySortStrings (l : List String) : List String :=
  List.insertionSort (fun a b : String => strLe a b = true) l

/-- `generate_package` with the filesystem abstracted: `dir_listing` models
`os.listdir(self.template_dir)` and `proc` models `process_docx_xml`.
Builds the replacement map once, filters and sorts the `.docx` templates,
processes each one and collects successes and failures without stopping. -/
def generate_package (proc : String → String → List (String × String) → Except String Unit)
    (template_dir : String) (dir_listing : List String)
    (customer_data : Customer) (output_dir : String) : PackageResult :=
  let replacements := prepare_replacements customer_data
  let templates := pySortStrings (dir_listing.filter (fun f => pyEndsWith f ".docx"))
  let res := templates.foldl (genStep proc template_dir output_dir customer_data replacements) ([], [])
  { generated := res.1, errors := res.2, output_dir := output_dir }

/-- A five-template corpus for the batch-behaviour scenario. -/
def demoListing : List String :=
  ["a.docx", "b.docx", "c.docx", "d.docx", "e.docx"]

/-- A processing function that fails on exactly one of the five demo
templates. -/
def demoProc : String → String → List (String × String) → Except String Unit :=
  fun template_path _output_path _replacements =>
    if template_path = "T/c.docx" then Except.error "boom" else Except.ok ()

/-! ## Lemmas about the substitution engine -/

/-- The engine's skip condition (`if old and new`) as a filter predicate. -/
def keepEntry (kv : String × String) : Bool := decide (kv.1 ≠ "" ∧ kv.2 ≠ "")

lemma foldl_substStep_filter :
    ∀ (l : List (String × String)) (content : String),
      l.foldl substStep content =
        (l.filter keepEntry).foldl (fun r kv => pyReplace r kv.1 kv.2) content := by
  intro l
  induction l with
  | nil => intro content; rfl
  | cons a l ih =>
    intro content
    rw [List.foldl_cons, List.filter_cons]
    by_cases h : a.1 ≠ "" ∧ a.2 ≠ ""
    · have hk : keepEntry a = true := by simp [keepEntry, h]
      rw [hk]
      simp only [if_pos]
      rw [List.foldl_cons, ih]
      simp [substStep, h]
    · have hk : keepEntry a = false := by
        simp only [keepEntry, decide_eq_false_iff_not]
        exact h
      rw [hk]
      simp only [Bool.false_eq_true, if_false]
      rw [ih]
      simp [substStep, h]

lemma orderedInsert_eq_cons_of_forall {a : String × String} :
    ∀ {t : List (String × String)}, (∀ x ∈ t, lenGE a x) →
      List.orderedInsert lenGE a t = a :: t := by
  intro t h
  cases t with
  | nil => rfl
  | cons c cs => simp [List.orderedInsert, h c (List.mem_cons_self c cs)]

lemma sorted_orderedInsert_filter (p : String × String → Bool) (a : String × String) :
    ∀ (s : List (String × String)), List.Sorted lenGE s →
      (List.orderedInsert lenGE a s).filter p =
        if p a then List.orderedInsert lenGE a (s.filter p) else s.filter p := by
  intro s
  induction s with
  | nil =>
    intro _
    cases hp : p a <;> simp [List.orderedInsert, List.filter_cons, hp]
  | cons b bs ih =>
    intro hsort
    rcases List.sorted_cons.mp hsort with ⟨hb, hbs⟩
    by_cases hab : lenGE a b
    · rw [List.orderedInsert, if_pos hab, List.filter_cons]
      cases hp : p a
      · simp
      · have hcons : List.orderedInsert lenGE a ((b :: bs).filter p) = a :: (b :: bs).filter p := by
          apply orderedInsert_eq_cons_of_forall
          intro x hx
          have hx2 : x ∈ b :: bs := List.mem_of_mem_filter hx
          rcases List.mem_cons.mp hx2 with rfl | hx3
          · exact hab
          · exact Trans.trans hab (hb x hx3)
        simp [hcons]
    · rw [List.orderedInsert, if_neg hab, List.filter_cons, List.filter_cons, ih hbs]
      cases hp : p a <;> cases hpb : p b <;>
        simp [List.orderedInsert, if_neg hab]

lemma sorted_items_filter (p : String × String → Bool) :
    ∀ reps : List (String × String),
      (sorted_items reps).filter p = sorted_items (reps.filter p) := by
  intro reps
  induction reps with
  | nil => rfl
  | cons a l ih =>
    show (List.orderedInsert lenGE a (List.insertionSort lenGE l)).filter p = _
    rw [sorted_orderedInsert_filter p a _ (List.sorted_insertionSort lenGE l)]
    rw [show (List.insertionSort lenGE l).filter p = sorted_items (l.filter p) from ih]
    rw [List.filter_cons]
    cases hp : p a
    · simp [sorted_items]
    · simp [sorted_items, List.insertionSort]

lemma filter_keepEntry_idem (l : List (String × String)) :
    (l.filter keepEntry).filter keepEntry = l.filter keepEntry := by
  rw [List.filter_filter]
  congr 1
  funext kv
  rw [Bool.and_self]

/-- Dropping the entries the engine skips (empty key or empty value) from
the map never changes the engine's output. -/
lemma engine_filter_equiv (content : String) (reps : List (String × String)) :
    replace_text_in_file content reps = replace_text_in_file content (reps.filter keepEntry) := by
  unfold replace_text_in_file
  rw [foldl_substStep_filter, foldl_substStep_filter]
  rw [sorted_items_filter, sorted_items_filter, filter_keepEntry_idem]

lemma foldl_substStep_id (content : String) :
    ∀ l : List (String × String), (∀ kv ∈ l, pyContains content kv.1 = false) →
      l.foldl substStep content = content := by
  intro l
  induction l with
  | nil => intro _; rfl
  | cons a l ih =>
    intro h
    have hstep : substStep content a = content := by
      unfold substStep
      split
      · exact pyReplace_of_not_contains content a.1 a.2 (h a (List.mem_cons_self a l))
      · rfl
    rw [List.foldl_cons, hstep]
    exact ih (fun kv hkv => h kv (List.mem_cons_of_mem a hkv))

/-- A map none of whose keys occurs in the text leaves the text unchanged. -/
lemma engine_noop (content : String) (reps : List (String × String))
    (h : ∀ kv ∈ reps, pyContains content kv.1 = false) :
    replace_text_in_file content reps = content := by
  unfold replace_text_in_file
  exact foldl_substStep_id content _
    (fun kv hkv => h kv ((List.perm_insertionSort lenGE reps).mem_iff.mp hkv))

/-! ## Lemmas about `number_to_words` -/

lemma joinWith_length_ge (sep : String) (w : String) (ws : List String) :
    w.length ≤ (joinWith sep (w :: ws)).length := by
  cases ws with
  | nil => simp [joinWith]
  | cons x xs =>
    simp [joinWith, String.length_append]
    omega

lemma number_to_words_facts (n : Nat) (h : n ≤ 999999999999) :
    number_to_words n ≠ "" ∧ (number_to_words n = "ZERO" ↔ n < 1000) := by
  by_cases h1 : n < 1000
  · have hb : n / 1000000000 = 0 := by omega
    have hm : n % 1000000000 / 1000000 = 0 := by omega
    have ht : n % 1000000 / 1000 = 0 := by omega
    simp [number_to_words, hb, hm, ht, h1]
  · have key : ∀ (w : String) (ws : List String), 8 ≤ w.length →
        joinWith " " (w :: ws) ≠ "" ∧ (joinWith " " (w :: ws) = "ZERO" ↔ n < 1000) := by
      intro w ws hw
      have hlen := joinWith_length_ge " " w ws
      refine ⟨fun heq => ?_, fun heq => ?_, fun hlt => absurd hlt h1⟩
      · rw [heq] at hlen
        simp at hlen
        omega
      · rw [heq] at hlen
        have h4 : ("ZERO" : String).length = 4 := rfl
        omega
    have hcases : n / 1000000000 ≠ 0 ∨
        (n / 1000000000 = 0 ∧ n % 1000000000 / 1000000 ≠ 0) ∨
        (n / 1000000000 = 0 ∧ n % 1000000000 / 1000000 = 0 ∧ n % 1000000 / 1000 ≠ 0) := by
      omega
    have hB : 8 ≤ (digit_words (n / 1000000000) ++ " BILLION").length := by
      have h8 : (" BILLION" : String).length = 8 := rfl
      rw [String.length_append]
      omega
    have hM : 8 ≤ (digit_words (n % 1000000000 / 1000000) ++ " MILLION").length := by
      have h8 : (" MILLION" : String).length = 8 := rfl
      rw [String.length_append]
      omega
    have hT : 8 ≤ (digit_words (n % 1000000 / 1000) ++ " THOUSAND").length := by
      have h9 : (" THOUSAND" : String).length = 9 := rfl
      rw [String.length_append]
      omega
    rcases hcases with hb | ⟨hb, hm⟩ | ⟨hb, hm, ht⟩
    · have hrw : number_to_words n =
          joinWith " " ((digit_words (n / 1000000000) ++ " BILLION") ::
            ((if n % 1000000000 / 1000000 ≠ 0 then
                [digit_words (n % 1000000000 / 1000000) ++ " MILLION"] else []) ++
             (if n % 1000000 / 1000 ≠ 0 then
                [digit_words (n % 1000000 / 1000) ++ " THOUSAND"] else []))) := by
        simp [number_to_words, hb]
      rw [hrw]
      exact key _ _ hB
    · have hrw : number_to_words n =
          joinWith " " ((digit_words (n % 1000000000 / 1000000) ++ " MILLION") ::
            (if n % 1000000 / 1000 ≠ 0 then
                [digit_words (n % 1000000 / 1000) ++ " THOUSAND"] else [])) := by
        simp [number_to_words, hb, hm]
      rw [hrw]
      exact key _ _ hM
    · have hrw : number_to_words n =
          joinWith " " [digit_words (n % 1000000 / 1000) ++ " THOUSAND"] := by
        simp [number_to_words, hb, hm, ht]
      rw [hrw]
      exact key _ _ hT

/-! ## Lemmas about `generate_package` -/

lemma genStep_length (proc : String → String → List (String × String) → Except String Unit)
    (tdir odir : String) (c : Customer) (reps : List (String × String)) :
    ∀ (l : List String) (acc : List String × List (String × String)),
      ((l.foldl (genStep proc tdir odir c reps) acc).1.length +
        (l.foldl (genStep proc tdir odir c reps) acc).2.length) =
      acc.1.length + acc.2.length + l.length := by
  intro l
  induction l with
  | nil => intro acc; simp
  | cons t ts ih =>
    intro acc
    rw [List.foldl_cons, ih]
    rcases hp : proc (tdir ++ "/" ++ t) (odir ++ "/" ++ output_name_for c t) reps with e | u
    all_goals simp [genStep, hp]
    all_goals omega

/-! ## The claims -/

/-- C1: `replace_text_in_file` processes the map's entries in descending
order of key length (`sorted_items` is pairwise `lenGE`-sorted), so the map
{"AB" ↦ "X", "ABC" ↦ "Y"} applied to "ABC" yields "Y" — never "XC" — for
both iteration orders of the map. -/
theorem claim_C1_longest_match_first :
    (∀ reps : List (String × String), (sorted_items reps).Pairwise lenGE)
    ∧ replace_text_in_file "ABC" [("AB", "X"), ("ABC", "Y")] = "Y"
    ∧ replace_text_in_file "ABC" [("ABC", "Y"), ("AB", "X")] = "Y"
    ∧ ("Y" : String) ≠ "XC" := by
  refine ⟨fun reps => ?_, by decide, by decide, by decide⟩
  exact List.sorted_insertionSort lenGE reps

/-- C2 counterexample: for the all-absent customer record the map returned
by `prepare_replacements` does contain an entry with an empty computed
value — the city placeholder "Temple Terrace" maps to `""` — so the map is
not filtered of empty values before being handed to the engine. -/
theorem claim_C2_counterexample :
    ("Temple Terrace", "") ∈ prepare_replacements {}
    ∧ List.lookup "Temple Terrace" (prepare_replacements {}) = some "" := by decide

set_option maxRecDepth 8000 in
/-- C2 (amended): no key of the map built by `prepare_replacements` is ever
empty, but entries with empty computed values stay in the returned map; the
engine itself skips them, so removing every empty-key/empty-value entry
changes no substitution result. -/
theorem claim_C2_amended (c : Customer) :
    (∀ kv ∈ prepare_replacements c, kv.1 ≠ "")
    ∧ ∀ t : String, replace_text_in_file t (prepare_replacements c) =
        replace_text_in_file t ((prepare_replacements c).filter keepEntry) := by
  constructor
  · intro kv hkv
    have h1 : kv.1 ∈ (prepare_replacements c).map Prod.fst := List.mem_map_of_mem _ hkv
    have h2 : (prepare_replacements c).map Prod.fst = (prepare_replacements {}).map Prod.fst := by
      rfl
    rw [h2] at h1
    exact (by decide : ∀ s ∈ (prepare_replacements ({} : Customer)).map Prod.fst, s ≠ "") kv.1 h1
  · intro t
    exact engine_filter_equiv t (prepare_replacements c)

/-- C3 counterexample: `number_to_words 0 = "ZERO"` is non-empty while
`0 < 1000`, so "non-empty iff n ≥ 1000" fails already at 0 (and at every
n below 1000, e.g. 500). -/
theorem claim_C3_counterexample :
    number_to_words 0 = "ZERO"
    ∧ ¬((number_to_words 0 ≠ "") ↔ 1000 ≤ 0)
    ∧ number_to_words 500 = "ZERO"
    ∧ number_to_words 500 ≠ "" := by decide

/-- C3 (amended): on 0 ≤ n ≤ 999 999 999 999, `number_to_words n` is always
non-empty; it renders as "ZERO" exactly when n < 1000 (no magnitude
reaches a thousand), and `number_to_words 0 = "ZERO"`. -/
theorem claim_C3_amended (n : Nat) (h : n ≤ 999999999999) :
    number_to_words 0 = "ZERO"
    ∧ number_to_words n ≠ ""
    ∧ (number_to_words n = "ZERO" ↔ n < 1000) :=
  ⟨by decide, (number_to_words_facts n h).1, (number_to_words_facts n h).2⟩

theorem claim_C3_witness :
    number_to_words 0 = "ZERO"
    ∧ number_to_words 1000 ≠ ""
    ∧ (number_to_words 1000 = "ZERO" ↔ 1000 < 1000) :=
  claim_C3_amended 1000 (by norm_num)

/-- C4 counterexample: the map {"A" ↦ "AA"} satisfies the claim's
hypothesis (no replacement value equals another key), yet applying it twice
to "A" gives "AAAA" ≠ "AA": `replace_text_in_file` is not idempotent under
that hypothesis. -/
theorem claim_C4_counterexample :
    (∀ kv ∈ ([("A", "AA")] : List (String × String)),
        ∀ kv2 ∈ ([("A", "AA")] : List (String × String)), kv.2 ≠ kv2.1)
    ∧ replace_text_in_file "A" [("A", "AA")] = "AA"
    ∧ replace_text_in_file (replace_text_in_file "A" [("A", "AA")]) [("A", "AA")] = "AAAA"
    ∧ ("AAAA" : String) ≠ "AA" := by decide

/-- C4 (amended): applying the same map a second time produces no further
change provided no key of the map still occurs in the once-substituted
text (the hypothesis the counterexample shows is actually needed). -/
theorem claim_C4_amended (reps : List (String × String)) (t : String)
    (h : ∀ kv ∈ reps, pyContains (replace_text_in_file t reps) kv.1 = false) :
    replace_text_in_file (replace_text_in_file t reps) reps = replace_text_in_file t reps :=
  engine_noop _ _ h

theorem claim_C4_witness :
    replace_text_in_file (replace_text_in_file "ABC" [("AB", "X"), ("ABC", "Y")])
        [("AB", "X"), ("ABC", "Y")]
      = replace_text_in_file "ABC" [("AB", "X"), ("ABC", "Y")] :=
  claim_C4_amended [("AB", "X"), ("ABC", "Y")] "ABC" (by decide)

/-- C5: `format_date_written` renders parsable ISO dates with the 11–13 →
"th" / last-digit ordinal rule (witnessed by the claim's example dates),
returns `""` on empty input, and returns unparsable input unchanged (it is
a total function: the `except` path is the `none` branch). The general
unparsable-input clause is stated for ASCII strings, where `parseYMD` is a
faithful model of `strptime` — CPython's `\d` additionally accepts
non-ASCII Unicode decimal digits, which the embedding does not model. The
last four conjuncts pin the parser's edges against the program: a
three-digit year is rejected (`%Y` is exactly four digits), a space-padded
day is accepted (`%d` allows `" 5"`), and the `datetime` constructor's
day-of-month and leap-year validation is modelled. -/
theorem claim_C5_format_date (s : String) (hne : s ≠ "")
    (hascii : ∀ c ∈ s.data, c.toNat < 128) (hbad : parseYMD s = none) :
    format_date_written s = s
    ∧ format_date_written "1985-06-15" = "June 15th, 1985"
    ∧ format_date_written "2025-01-01" = "January 1st, 2025"
    ∧ format_date_written "2025-01-11" = "January 11th, 2025"
    ∧ format_date_written "" = ""
    ∧ format_date_written "not-a-date" = "not-a-date"
    ∧ format_date_written "123-01-01" = "123-01-01"
    ∧ format_date_written "2025-01- 5" = "January 5th, 2025"
    ∧ format_date_written "2025-11-31" = "2025-11-31"
    ∧ format_date_written "2024-02-29" = "February 29th, 2024" := by
  refine ⟨?_, by decide, by decide, by decide, by decide, by decide, by decide, by decide,
    by decide, by decide⟩
  simp [format_date_written, hne, hbad]

theorem claim_C5_witness :
    format_date_written "hello" = "hello"
    ∧ format_date_written "1985-06-15" = "June 15th, 1985"
    ∧ format_date_written "2025-01-01" = "January 1st, 2025"
    ∧ format_date_written "2025-01-11" = "January 11th, 2025"
    ∧ format_date_written "" = ""
    ∧ format_date_written "not-a-date" = "not-a-date"
    ∧ format_date_written "123-01-01" = "123-01-01"
    ∧ format_date_written "2025-01- 5" = "January 5th, 2025"
    ∧ format_date_written "2025-11-31" = "2025-11-31"
    ∧ format_date_written "2024-02-29" = "February 29th, 2024" :=
  claim_C5_format_date "hello" (by decide) (by decide) (by decide)

/-- C6 counterexample: with documentDate "2025-01-15" the legacy
slash-format key "4/7/2025" maps to the raw ISO string "2025-01-15", which
contains no slash at all — not to a slash-separated numeric rendering. -/
theorem claim_C6_counterexample :
    List.lookup "4/7/2025" (prepare_replacements { documentDate := some "2025-01-15" })
      = some "2025-01-15"
    ∧ pyContains "2025-01-15" "/" = false
    ∧ ("2025-01-15" : String) ≠ "1/15/2025" := by decide

/-- C6 (amended): for every record with a non-empty documentDate, the map
binds the legacy slash-format key "4/7/2025" to the documentDate string
exactly as supplied (verbatim, no slash reformatting). -/
theorem claim_C6_amended (c : Customer) (d : String)
    (hd : c.documentDate = some d) (hne : d ≠ "") :
    List.lookup "4/7/2025" (prepare_replacements c) = some d := by
  show some (if getS c.documentDate ≠ "" then getS c.documentDate else "") = some d
  rw [hd]
  simp [getS, hne]

theorem claim_C6_witness :
    List.lookup "4/7/2025" (prepare_replacements { documentDate := some "2025-03-09" })
      = some "2025-03-09" :=
  claim_C6_amended _ _ rfl (by decide)

/-- C7 (amended): the engine is a total function; entries with an empty key
or value are skipped (filtering them away never changes the output, and a
single such entry leaves any text unchanged), and a map none of whose keys
occurs in the text leaves the text unchanged. An individual key absent
from the text can still take effect when an earlier (longer-key)
replacement creates an occurrence of it, which is what the counterexample
exhibits. -/
theorem claim_C7_engine_total_safe (reps : List (String × String)) (content : String) :
    replace_text_in_file content reps =
        replace_text_in_file content (reps.filter keepEntry)
    ∧ ((∀ kv ∈ reps, pyContains content kv.1 = false) →
        replace_text_in_file content reps = content)
    ∧ (∀ k : String, replace_text_in_file content [(k, "")] = content)
    ∧ (∀ v : String, replace_text_in_file content [("", v)] = content) := by
  refine ⟨engine_filter_equiv content reps, engine_noop content reps, fun k => ?_, fun v => ?_⟩
  · simp [replace_text_in_file, sorted_items, List.insertionSort, substStep]
  · simp [replace_text_in_file, sorted_items, List.insertionSort, substStep]

/-- C7 counterexample: the key "XY" does not occur in the text "ABCD", yet
the entry ("XY", "Q") changes the output (the earlier replacement
"ABCD" ↦ "XY" creates an occurrence), so "keys not occurring in the text
have no effect" fails as stated. -/
theorem claim_C7_counterexample :
    pyContains "ABCD" "XY" = false
    ∧ replace_text_in_file "ABCD" [("ABCD", "XY"), ("XY", "Q")] = "Q"
    ∧ replace_text_in_file "ABCD" [("ABCD", "XY")] = "XY"
    ∧ ("Q" : String) ≠ "XY" := by decide

/-- C8: `generate_package` records one outcome (success or error entry) per
template — so it never stops early — and on the five-template demo corpus
where exactly one template fails it reports exactly 4 generated files and
the single error record (template name and message). -/
theorem claim_C8_batch_continues :
    (∀ (proc : String → String → List (String × String) → Except String Unit)
        (template_dir : String) (dir_listing : List String)
        (customer_data : Customer) (output_dir : String),
        (generate_package proc template_dir dir_listing customer_data output_dir).generated.length
          + (generate_package proc template_dir dir_listing customer_data output_dir).errors.length
          = (pySortStrings (dir_listing.filter (fun f => pyEndsWith f ".docx"))).length)
    ∧ demoListing.length = 5
    ∧ (generate_package demoProc "T" demoListing {} "O").generated.length = 4
    ∧ (generate_package demoProc "T" demoListing {} "O").errors = [("c.docx", "boom")] := by
  refine ⟨?_, by decide, by decide, by decide⟩
  intro proc tdir listing c odir
  have h := genStep_length proc tdir odir c (prepare_replacements c)
    (pySortStrings (listing.filter (fun f => pyEndsWith f ".docx"))) ([], [])
  simpa [generate_package] using h

/-- C9: `prepare_replacements` is total on every record shape (always 66
entries); each absent string field reads as the empty string — so the
pass-through entries of that field carry the value `""`, never a null and
never a crash — and an absent lien amount defaults to 100000000 (whose
formatted and worded entries are then "$100,000,000.00" and
"ONE HUNDRED MILLION"). -/
theorem claim_C9_absent_fields (c : Customer) :
    (prepare_replacements c).length = 66
    ∧ (c.ssn = none → List.lookup "493-74-8357" (prepare_replacements c) = some "")
    ∧ (c.streetAddress = none →
        List.lookup "6316 East 113th Avenue" (prepare_replacements c) = some "")
    ∧ (c.city = none → List.lookup "Temple Terrace" (prepare_replacements c) = some "")
    ∧ (c.state = none → List.lookup "Florida" (prepare_replacements c) = some "")
    ∧ (c.zipCode = none → List.lookup "33617" (prepare_replacements c) = some "")
    ∧ (c.county = none → List.lookup "Hillsborough" (prepare_replacements c) = some "")
    ∧ (c.uccFilingNumber = none → List.lookup "XXXXXXXXXXXXX" (prepare_replacements c) = some "")
    ∧ (c.uccFilingState = none → List.lookup "New York" (prepare_replacements c) = some "")
    ∧ (c.registeredMailNumber = none →
        List.lookup "RF737860948US" (prepare_replacements c) = some "")
    ∧ (c.dtcRoutingNumber = none → List.lookup "0810-0004-5" (prepare_replacements c) = some "")
    ∧ (c.dtcAccountNumber = none → List.lookup "053045139" (prepare_replacements c) = some "")
    ∧ (c.birthCertNumber = none → List.lookup "124-62-071026" (prepare_replacements c) = some "")
    ∧ (c.documentDate = none → List.lookup "4/7/2025" (prepare_replacements c) = some "")
    ∧ (c.birthDate = none → List.lookup "October 12th, 1962" (prepare_replacements c) = some "")
    ∧ (c.firstName = none → List.lookup "TKC" (prepare_replacements c) = some "")
    ∧ (c.lienAmount = none →
        List.lookup "$100,000,000.00" (prepare_replacements c) = some "$100,000,000.00"
        ∧ List.lookup "ONE HUNDRED MILLION" (prepare_replacements c)
            = some "ONE HUNDRED MILLION") := by
  refine ⟨rfl, fun h => ?_, fun h => ?_, fun h => ?_, fun h => ?_, fun h => ?_, fun h => ?_,
    fun h => ?_, fun h => ?_, fun h => ?_, fun h => ?_, fun h => ?_, fun h => ?_, fun h => ?_,
    fun h => ?_, fun h => ?_, fun h => ?_⟩
  · show some (getS c.ssn) = some ""
    rw [h]
    rfl
  · show some (getS c.streetAddress) = some ""
    rw [h]
    rfl
  · show some (getS c.city) = some ""
    rw [h]
    rfl
  · show some (getS c.state) = some ""
    rw [h]
    rfl
  · show some (getS c.zipCode) = some ""
    rw [h]
    rfl
  · show some (getS c.county) = some ""
    rw [h]
    rfl
  · show some (getS c.uccFilingNumber) = some ""
    rw [h]
    rfl
  · show some (getS c.uccFilingState) = some ""
    rw [h]
    rfl
  · show some (getS c.registeredMailNumber) = some ""
    rw [h]
    rfl
  · show some (getS c.dtcRoutingNumber) = some ""
    rw [h]
    rfl
  · show some (getS c.dtcAccountNumber) = some ""
    rw [h]
    rfl
  · show some (getS c.birthCertNumber) = some ""
    rw [h]
    rfl
  · show some (if getS c.documentDate ≠ "" then getS c.documentDate else "") = some ""
    rw [h]
    rfl
  · show some (format_date_written (getS c.birthDate)) = some ""
    rw [h]
    rfl
  · show some (if getS c.firstName ≠ "" ∧ getS c.lastName ≠ "" then
        pyUpper (strTake (getS c.firstName) 1 ++
          (if getS c.middleName ≠ "" then strTake (getS c.middleName) 1 else "") ++
          strTake (getS c.lastName) 1)
      else "") = some ""
    rw [h]
    simp [getS]
  · constructor
    · show some (formatMoney (c.lienAmount.getD 100000000)) = some "$100,000,000.00"
      rw [h]
      rfl
    · show some (number_to_words (c.lienAmount.getD 100000000)) = some "ONE HUNDRED MILLION"
      rw [h]
      rfl

/-- C10: `generate_package` derives the output filename by substituting the
customer's last name for both generic tokens `_TKC` and `_JAD`, and an
absent lastName falls back to the literal "Customer". -/
theorem claim_C10_filename_substitution (c : Customer) (hc : c.lastName = none) :
    output_name_for c "Treasury_TKC_Package.docx" = "Treasury_Customer_Package.docx"
    ∧ output_name_for c "Notice_JAD_Final.docx" = "Notice_Customer_Final.docx"
    ∧ output_name_for { lastName := some "Smith" } "Treasury_TKC_Package.docx"
        = "Treasury_Smith_Package.docx"
    ∧ output_name_for { lastName := some "Smith" } "Notice_JAD_Final.docx"
        = "Notice_Smith_Final.docx"
    ∧ (generate_package (fun _ _ _ => Except.ok ()) "T" ["Doc_TKC.docx"] ({} : Customer)
        "O").generated = ["O/Doc_Customer.docx"] := by
  have hlast : c.lastName.getD "Customer" = "Customer" := by rw [hc]; rfl
  refine ⟨?_, ?_, by decide, by decide, by decide⟩
  · simp only [output_name_for, hlast]
    decide
  · simp only [output_name_for, hlast]
    decide

theorem claim_C10_witness :
    output_name_for {} "Treasury_TKC_Package.docx" = "Treasury_Customer_Package.docx"
    ∧ output_name_for {} "Notice_JAD_Final.docx" = "Notice_Customer_Final.docx"
    ∧ output_name_for { lastName := some "Smith" } "Treasury_TKC_Package.docx"
        = "Treasury_Smith_Package.docx"
    ∧ output_name_for { lastName := some "Smith" } "Notice_JAD_Final.docx"
        = "Notice_Smith_Final.docx"
    ∧ (generate_package (fun _ _ _ => Except.ok ()) "T" ["Doc_TKC.docx"] ({} : Customer)
        "O").generated = ["O/Doc_Customer.docx"] :=
  claim_C10_filename_substitution {} rfl

end ReclaimStatus
